import Mathlib

/-!
Verification of the SlideWeaver slide-generation pipeline.

This file gives a shallow embedding, in Lean 4, of the parts of the
repository that the checked properties are about:

* `src/core/agents/slide_designer.py` — the HTML extraction helper
  (`_extract_html`), the checklist validator (`_validate_html`) and the
  validate-and-retry design loop (`design_slide`), together with the
  constructor logic for `max_retries`;
* `src/core/agents/orchestrator.py` — the per-slide design phase and the
  final result assembly of `generate_presentation`;
* `src/backend/session_manager.py` and `src/backend/image_handler.py` —
  session catalog creation (deep copy of the base catalog), upload
  validation, upload processing and artifact removal.

Python strings are modelled as `List Char` (named `Str`); Python bytes as
`List Nat`; Python `int` as `Int` where negative values are reachable and
as `Nat` where they are not.  The regular expressions used by the source
are small and are translated into explicit character-level matchers.
Case mapping (`str.lower`, `str.upper`, `re.IGNORECASE`) is modelled on
ASCII, which covers every needle the source compares against.
-/

set_option maxRecDepth 40000

namespace SlideWeaver

/-- Python strings, modelled as lists of characters. -/
abbrev Str := List Char

/-- Coerce a Lean string literal to the `Str` model. -/
def strOf (s : String) : Str := s.data

/-- Python whitespace for `str.strip` and the regex class backslash-s:
space, tab, newline, carriage return, vertical tab, form feed. -/
def pyWs (c : Char) : Bool :=
  c = ' ' || c = '\t' || c = '\n' || c = '\r' ||
  c = Char.ofNat 11 || c = Char.ofNat 12

/-- Python `str.strip()`: remove leading and trailing whitespace. -/
def pystrip (s : Str) : Str :=
  ((s.dropWhile pyWs).reverse.dropWhile pyWs).reverse

/-- Python `str.find(needle)`: index of the first occurrence of `needle`,
`none` when absent (Python returns -1). -/
def findSub (needle : Str) : Str → Option Nat
  | [] => if needle = [] then some 0 else none
  | c :: t =>
    if needle.isPrefixOf (c :: t) then some 0
    else (findSub needle t).map (· + 1)

/-- Python `needle in s` for strings. -/
def inStr (needle s : Str) : Bool := (findSub needle s).isSome

/-- ASCII model of Python `str.lower()`. -/
def lowerStr (s : Str) : Str := s.map Char.toLower

/-- ASCII model of Python `str.upper()`. -/
def upperStr (s : Str) : Str := s.map Char.toUpper

/-- Python slice `s[start:stop]`. -/
def slice (s : Str) (start stop : Nat) : Str := (s.take stop).drop start

/-- The apostrophe character (used by the quote class of the URL regex). -/
def squote : Char := Char.ofNat 39

/-! ### Slide specifications and design results (`src/core/schemas.py`)

Of the pydantic `SlideSpec` model, only `slide_id` and `slide_index` are
consulted by the modelled operations (validation, retry loop, output
file naming); the remaining fields only feed the LLM prompt text, which
is abstracted into the generator function. -/

structure SlideSpec where
  slide_id : Str
  slide_index : Nat
deriving DecidableEq, Repr

structure SlideDesignResult where
  slide_id : Str
  html_content : Str
  validation_passed : Bool
  validation_errors : List Str
deriving DecidableEq, Repr

/-! ### The checklist validator `SlideDesignerAgent._validate_html` -/

/-- Matcher for the regex `(src|href)=["&apos;]https?://` at the start of
`s` (the quote class accepts a double or single quote). -/
def extUrlAt (s : Str) : Bool :=
  let urlTail : Str → Bool := fun r =>
    match r with
    | q :: rest =>
      (q = '"' || q = squote) &&
      ((strOf "http://").isPrefixOf rest || (strOf "https://").isPrefixOf rest)
    | [] => false
  ((strOf "src=").isPrefixOf s && urlTail (s.drop 4)) ||
  ((strOf "href=").isPrefixOf s && urlTail (s.drop 5))

/-- `re.search` of the external-URL regex: does it match anywhere? -/
def hasExtUrl : Str → Bool
  | [] => false
  | c :: t => extUrlAt (c :: t) || hasExtUrl t

/-- `[A-Za-z]`. -/
def isAsciiLetter (c : Char) : Bool :=
  ('A' ≤ c && c ≤ 'Z') || ('a' ≤ c && c ≤ 'z')

/-- Matcher for `<div[^>]*>\s*([A-Za-z][^<]\x7b10,\x7d)` at the start of
`s`, returning the captured group.  `[^>]*` runs to the first closing
angle bracket, `\s*` greedily eats whitespace (backtracking cannot help,
since no whitespace character is an ASCII letter), and the greedy
`[^<]\x7b10,\x7d` takes the maximal run of characters other than an
opening angle bracket, requiring at least ten of them. -/
def divMatchAt (s : Str) : Option Str :=
  if (strOf "<div").isPrefixOf s then
    let rest := s.drop 4
    match findSub (strOf ">") rest with
    | none => none
    | some i =>
      let afterWs := (rest.drop (i + 1)).dropWhile pyWs
      match afterWs with
      | c :: t =>
        if isAsciiLetter c then
          let run := t.takeWhile (fun d => d ≠ '<')
          if 10 ≤ run.length then some (c :: run) else none
        else none
      | [] => none
  else none

/-- `re.findall(unwrapped_pattern, html)[0]`: the group of the leftmost
match, `none` when the pattern does not match. -/
def findDivUnwrapped : Str → Option Str
  | [] => none
  | c :: t =>
    match divMatchAt (c :: t) with
    | some g => some g
    | none => findDivUnwrapped t

/-- Check 1: `id="slide-root"` must appear in the document. -/
def slideRootCheck (html : Str) : List Str :=
  if inStr (strOf "id=\"slide-root\"") html then []
  else [strOf "Missing #slide-root container"]

/-- The needle of check 2: `data-slide-id="<slide_id>"`. -/
def slideIdNeedle (slide : SlideSpec) : Str :=
  strOf "data-slide-id=\"" ++ slide.slide_id ++ strOf "\""

/-- Check 2: `data-slide-id="<slide_id>"` must appear in the document. -/
def slideIdCheck (html : Str) (slide : SlideSpec) : List Str :=
  if inStr (slideIdNeedle slide) html then []
  else [strOf "Missing or incorrect data-slide-id (expected " ++
        slide.slide_id ++ strOf ")"]

/-- Check 3: no external URL in a `src` or `href` attribute. -/
def extUrlCheck (html : Str) : List Str :=
  if hasExtUrl html then [strOf "Contains external URLs (http/https)"] else []

/-- Check 4: a DOCTYPE declaration is present. -/
def doctypeCheck (html : Str) : List Str :=
  if inStr (strOf "<!DOCTYPE") (upperStr html) then []
  else [strOf "Missing DOCTYPE declaration"]

/-- Checks 5a-5c: `<html`, `<head`, `<body` tags are present. -/
def structureCheck (html : Str) : List Str :=
  (if inStr (strOf "<html") (lowerStr html) then []
   else [strOf "Missing <html> tag"]) ++
  (if inStr (strOf "<head") (lowerStr html) then []
   else [strOf "Missing <head> tag"]) ++
  (if inStr (strOf "<body") (lowerStr html) then []
   else [strOf "Missing <body> tag"])

/-- Check 6: no unwrapped text directly inside a div. -/
def unwrappedCheck (html : Str) : List Str :=
  match findDivUnwrapped html with
  | some g =>
    [strOf "DIV contains unwrapped text (wrap in <p> tags): " ++
     [squote] ++ g.take 50 ++ strOf "..." ++ [squote]]
  | none => []

/-- `SlideDesignerAgent._validate_html`: run all checklist items in the
order of the source, accumulating error messages. -/
def validate_html (html : Str) (slide : SlideSpec) : List Str :=
  slideRootCheck html ++
  slideIdCheck html slide ++
  extUrlCheck html ++
  doctypeCheck html ++
  structureCheck html ++
  unwrappedCheck html

/-! ### HTML extraction `SlideDesignerAgent._extract_html` -/

/-- Case-insensitive matcher for the regex `<!DOCTYPE\s+html.*?>` at the
start of `s`, returning the match length.  After the literal parts, the
non-greedy `.*?>` ends at the first closing angle bracket, and fails if a
newline intervenes (the regex dot does not match newlines). -/
def doctypeMatchLen (s : Str) : Option Nat :=
  if (strOf "<!doctype").isPrefixOf (lowerStr s) then
    let r1 := s.drop 9
    let wsRun := r1.takeWhile pyWs
    if wsRun.length = 0 then none
    else
      let r2 := r1.drop wsRun.length
      if (strOf "html").isPrefixOf (lowerStr r2) then
        let r3 := r2.drop 4
        let upto := r3.takeWhile (fun c => c ≠ '>' && c ≠ '\n')
        match r3.drop upto.length with
        | '>' :: _ => some (9 + wsRun.length + 4 + upto.length + 1)
        | _ => none
      else none
  else none

/-- `re.search` of the DOCTYPE regex: leftmost match as
(start index, match length). -/
def doctypeSearch : Str → Option (Nat × Nat)
  | [] => none
  | c :: t =>
    match doctypeMatchLen (c :: t) with
    | some L => some (0, L)
    | none => (doctypeSearch t).map (fun p => (p.1 + 1, p.2))

/-- Case-insensitive `re.search` for a literal needle (the needle is
given in lowercase): index of the first occurrence. -/
def findSubCI (needle : String) (s : Str) : Option Nat :=
  findSub needle.data (lowerStr s)

/-- The fenced-block branches of `_extract_html`: given the fence opener
length, return the stripped slice between the opener and the next fence,
provided the closing fence exists strictly after the content start. -/
def fenceSlice (response : Str) (fence : String) (skip : Nat) : Option Str :=
  match findSub (strOf fence) response with
  | some idx =>
    let start := idx + skip
    match findSub (strOf "```") (response.drop start) with
    | some j => if 0 < j then some (pystrip (slice response start (start + j))) else none
    | none => none
  | none => none

/-- `SlideDesignerAgent._extract_html`: strip the response, then try in
order a fenced html block, a generic fenced block, a DOCTYPE-to-closing
html-tag scan, and finally return the response as-is. -/
def extract_html (response0 : Str) : Str :=
  let response := pystrip response0
  match fenceSlice response "```html" 7 with
  | some r => r
  | none =>
  match fenceSlice response "```" 3 with
  | some r => r
  | none =>
  match doctypeSearch response with
  | some (start, _) =>
    (match findSubCI "</html>" (response.drop start) with
     | some j => pystrip (slice response start (start + j + 7))
     | none => response)
  | none => response

/-! ### The design loop `SlideDesignerAgent.design_slide`

The generator (the Strands agent) is abstracted as a function from the
attempt number (1-based) to its raw text response; the loop is quantified
over all such functions, which covers every possible sequence of
responses.  The pair returned is (outcome, number of generator calls);
the outcome is `none` when the Python loop body never runs, in which
case the final `return` raises `NameError` because `html_content` is
unbound (reachable only with `max_retries < 1`). -/

def designFrom (gen : Nat → Str) (slide : SlideSpec) :
    Nat → Nat → Option SlideDesignResult × Nat
  | _, 0 => (none, 0)
  | attempt, remaining + 1 =>
    let html := extract_html (gen attempt)
    let errs := validate_html html slide
    if errs = [] then
      (some ⟨slide.slide_id, html, true, []⟩, 1)
    else if remaining = 0 then
      (some ⟨slide.slide_id, html, false, errs⟩, 1)
    else
      let rec_result := designFrom gen slide (attempt + 1) remaining
      (rec_result.1, rec_result.2 + 1)

/-- `design_slide`, run with a budget of `maxRetries` attempts. -/
def design_slide (gen : Nat → Str) (slide : SlideSpec) (maxRetries : Nat) :
    Option SlideDesignResult :=
  (designFrom gen slide 1 maxRetries).1

/-- Number of generator invocations made by `design_slide`. -/
def design_slide_calls (gen : Nat → Str) (slide : SlideSpec) (maxRetries : Nat) : Nat :=
  (designFrom gen slide 1 maxRetries).2

/-- `SlideDesignerAgent.__init__`: `self.max_retries = max_retries or
self.DEFAULT_MAX_RETRIES`, where the argument is `int | None` and the
only falsy ints are `None` and `0`. -/
def designerInitMaxRetries : Option Int → Int
  | none => 3
  | some v => if v = 0 then 3 else v

/-- `SlidePlannerAgent.__init__`: identical `or`-defaulting logic. -/
def plannerInitMaxRetries : Option Int → Int
  | none => 3
  | some v => if v = 0 then 3 else v

/-- Number of loop iterations of `for attempt in range(1, mr + 1)` for an
`int`-valued `mr` (empty when `mr` is not positive). -/
def loopAttempts (mr : Int) : Nat := mr.toNat

/-! ### Concrete fixtures used by witnesses and counterexamples -/

/-- A complete, checklist-clean slide document for slide id `s1`. -/
def goodHtml : Str :=
  strOf "<!DOCTYPE html><html><head></head><body><div id=\"slide-root\" data-slide-id=\"s1\"><p>Hi</p></div></body></html>"

/-- The slide specification with id `s1`, index 1. -/
def slideS1 : SlideSpec := ⟨strOf "s1", 1⟩

/-- A generator that always answers with the clean document. -/
def genGood : Nat → Str := fun _ => goodHtml

/-- A generator that always answers with content failing the checklist. -/
def genBad : Nat → Str := fun _ => strOf "bad"

example : validate_html goodHtml slideS1 = [] := by decide
example : extract_html goodHtml = goodHtml := by decide
example : design_slide genGood slideS1 1 =
    some ⟨strOf "s1", goodHtml, true, []⟩ := by decide
example : design_slide genBad slideS1 2 =
    some (SlideDesignResult.mk (strOf "s1") (strOf "bad") false
      [strOf "Missing #slide-root container",
       strOf "Missing or incorrect data-slide-id (expected s1)",
       strOf "Missing DOCTYPE declaration",
       strOf "Missing <html> tag",
       strOf "Missing <head> tag",
       strOf "Missing <body> tag"]) := by decide
example : design_slide_calls genBad slideS1 3 = 3 := by decide
example : design_slide_calls genGood slideS1 3 = 1 := by decide
example : extract_html (strOf "  x ```html <p>a</p>``` y") = strOf "<p>a</p>" := by decide
example : extract_html (strOf "pre ``` <b>z</b> ``` post") = strOf "<b>z</b>" := by decide
example : extract_html (strOf "note <!DOCTYPE html><html></html> tail") =
    strOf "<!DOCTYPE html><html></html>" := by decide

/-! ### Orchestrator (`OrchestratorAgent.generate_presentation`, step 5
onward; `GenerationService.generate_presentation_stream` mirrors the same
loop).  The per-slide designer call is abstracted as a function returning
either a `SlideDesignResult` or the message of a raised exception; the
PPTX build subprocess (`_build_pptx`) is abstracted as a function from
the written slide files to a `BuildResult`. -/

structure BuildResult where
  success : Bool
  pptx_path : Option Str
  slide_count : Nat
  errors : List Str
  warnings : List Str
deriving Repr

structure PresentationResult where
  success : Bool
  title : Str
  slide_count : Nat
  pptx_path : Option Str
  output_dir : Str
  assumptions : List Str
  limitations : List Str
  errors : List Str
deriving Repr

/-- State accumulated by the per-slide design loop: files written to the
slides directory (name and content), fatal errors, warnings. -/
structure DesignPhaseState where
  html_files : List (Str × Str)
  errors : List Str
  warnings : List Str
deriving DecidableEq, Repr

/-- Python `f"\x7bslide.slide_index:02d\x7d"`: decimal digits, zero-padded
to width two. -/
def format02 (n : Nat) : Str :=
  let d := Nat.toDigits 10 n
  if d.length < 2 then '0' :: d else d

/-- The output filename `f"\x7bindex:02d\x7d_\x7bslide_id\x7d.html"`. -/
def slideFilename (slide : SlideSpec) : Str :=
  format02 slide.slide_index ++ strOf "_" ++ slide.slide_id ++ strOf ".html"

/-- Step 5 of `generate_presentation`: design each slide; a designer
exception appends to `errors`; otherwise the HTML is written and batched
unconditionally, with validation failures appended to `warnings`. -/
def designPhase (designer : SlideSpec → Except Str SlideDesignResult) :
    List SlideSpec → DesignPhaseState → DesignPhaseState
  | [], st => st
  | slide :: rest, st =>
    let st' :=
      match designer slide with
      | .ok result =>
        let newWarnings :=
          if result.validation_passed then []
          else result.validation_errors.map
            (fun e => strOf "Slide " ++ slide.slide_id ++ strOf ": " ++ e)
        ⟨st.html_files ++ [(slideFilename slide, result.html_content)],
         st.errors, st.warnings ++ newWarnings⟩
      | .error e =>
        ⟨st.html_files,
         st.errors ++
           [strOf "Failed to design slide " ++ slide.slide_id ++ strOf ": " ++ e],
         st.warnings⟩
    designPhase designer rest st'

/-- Steps 5 and 6 of `generate_presentation` (after the plan is saved):
run the design phase from an empty state, fail hard when no file was
written, otherwise build the PPTX over the written batch and assemble the
final result. -/
def generate_presentation_after_plan
    (designer : SlideSpec → Except Str SlideDesignResult)
    (build : List (Str × Str) → BuildResult)
    (slides : List SlideSpec) (title : Str) (outputDir : Str)
    (assumptions : List Str) : PresentationResult :=
  let st := designPhase designer slides ⟨[], [], []⟩
  if st.html_files = [] then
    ⟨false, title, 0, none, outputDir, [], [],
     st.errors ++ [strOf "No slides were successfully designed"]⟩
  else
    let buildResult := build st.html_files
    let errors := st.errors ++ buildResult.errors
    ⟨buildResult.success && decide (errors = []),
     title, st.html_files.length, buildResult.pptx_path, outputDir,
     assumptions, st.warnings, errors⟩

/-! ### Backend: sessions, catalogs, uploads

Python mutates the artifact list of a catalog in place
(`session.catalog.artifacts.append(...)`, `.pop(i)`), so whether two
catalogs share one list object matters.  The embedding makes object
identity explicit: a `Store` is a heap of list objects addressed by
natural numbers, and a catalog holds a reference into it.  Distinct
`ArtifactCatalog` objects (the base catalog and each session catalog are
constructed separately) have their own `artifact_count` field, modelled
as a plain value.  The uploads directory is modelled as the list of file
paths present in it. -/

structure Artifact where
  artifact_id : Str
  artifact_type : Str
  title : Str
  description : Str
  dataset : Str
  tags : List Str
  save_path : Str
  html_table : Str
  markdown_table : Str
deriving DecidableEq, Repr

/-- `Artifact.model_copy()`: a fresh object with the same field values. -/
def modelCopy (a : Artifact) : Artifact :=
  ⟨a.artifact_id, a.artifact_type, a.title, a.description, a.dataset,
   a.tags, a.save_path, a.html_table, a.markdown_table⟩

/-- Heap of artifact-list objects; addresses below `next` are live. -/
structure Store where
  mem : Nat → List Artifact
  next : Nat

def Store.get (σ : Store) (r : Nat) : List Artifact := σ.mem r

def Store.set (σ : Store) (r : Nat) (v : List Artifact) : Store :=
  ⟨fun x => if x = r then v else σ.mem x, σ.next⟩

/-- Allocate a fresh list object; returns the new store and its address. -/
def Store.alloc (σ : Store) (v : List Artifact) : Store × Nat :=
  (⟨fun x => if x = σ.next then v else σ.mem x, σ.next + 1⟩, σ.next)

/-- An `ArtifactCatalog` object: its own count field and a reference to
its artifact-list object. -/
structure CatalogObj where
  artifact_count : Int
  artifactsRef : Nat
deriving DecidableEq, Repr

/-- A `Session`: its catalog object, the ids of user uploads, the file
paths present in its uploads directory, and the uploads directory path. -/
structure Session where
  catalog : CatalogObj
  uploaded_images : List Str
  files : List Str
  uploadsDir : Str
deriving DecidableEq, Repr

/-- `SessionManager._create_session_catalog`: a fresh
`ArtifactCatalog` whose artifact list is a new list object holding a
`model_copy` of every base artifact, with the base count carried over. -/
def create_session_catalog (store : Store) (base : CatalogObj) :
    Store × CatalogObj :=
  let copied := (Store.get store base.artifactsRef).map modelCopy
  let allocated := Store.alloc store copied
  (allocated.1, ⟨base.artifact_count, allocated.2⟩)

/-- `fastapi.UploadFile`, restricted to the consulted attributes, plus
the bytes `await file.read()` yields. -/
structure UploadFile where
  filename : Option Str
  content_type : Option Str
  content : List Nat
deriving DecidableEq, Repr

/-- Python truthiness of a `str | None` value. -/
def pyTruthyOptStr : Option Str → Bool
  | none => false
  | some s => !s.isEmpty

/-- `PurePath.name`: the component after the last slash. -/
def baseName (p : Str) : Str :=
  p.foldl (fun acc c => if c = '/' then [] else acc ++ [c]) []

/-- Index of the last dot of a name (`name.rfind(".")`). -/
def lastDotIdx (name : Str) : Option Nat :=
  (name.reverse.findIdx? (fun c => c = '.')).map
    (fun j => name.length - 1 - j)

/-- `PurePath.suffix`: `name[i:]` when the last dot sits strictly inside
the name, else empty. -/
def pathSuffix (p : Str) : Str :=
  let name := baseName p
  match lastDotIdx name with
  | some i => if 0 < i && i + 1 < name.length then name.drop i else []
  | none => []

/-- `PurePath.stem`: `name[:i]` when the last dot sits strictly inside
the name, else the whole name. -/
def pathStem (p : Str) : Str :=
  let name := baseName p
  match lastDotIdx name with
  | some i => if 0 < i && i + 1 < name.length then name.take i else name
  | none => name

/-- The exception raised by `ImageHandler.validate_file`, tagged by the
failing check. -/
inductive ImageValidationError
  | fileTooLarge
  | extensionNotAllowed
  | mimeNotAllowed
deriving DecidableEq, Repr

/-- `ImageHandler.validate_file`: size, then extension (only when a
filename is present), then declared content type (only when present).
The size cap and the allowed extension and MIME sets are the
configuration-derived module constants, passed as parameters. -/
def validate_file (maxFileSize : Nat) (allowedExts allowedMimes : List Str)
    (file : UploadFile) (content : List Nat) :
    Option ImageValidationError :=
  let mimeCheck : Option ImageValidationError :=
    if pyTruthyOptStr file.content_type then
      if file.content_type.getD [] ∈ allowedMimes then none
      else some .mimeNotAllowed
    else none
  if maxFileSize < content.length then some .fileTooLarge
  else if pyTruthyOptStr file.filename then
    if lowerStr (pathSuffix (file.filename.getD [])) ∈ allowedExts then
      mimeCheck
    else some .extensionNotAllowed
  else mimeCheck

/-- `ImageHandler.process_upload`: read, validate (raising on failure
before any mutation), write the file into the uploads directory, then
append the artifact to the session catalog, bump its count and record
the upload id.  `hexId` stands for the random `uuid4().hex[:8]`;
`str(save_path.resolve())` is modelled by the path itself. -/
def process_upload (maxFileSize : Nat) (allowedExts allowedMimes : List Str)
    (store : Store) (sess : Session) (file : UploadFile) (hexId : Str)
    (title : Option Str) (description : Str) (tags : Option (List Str)) :
    Except ImageValidationError (Store × Session × Artifact) :=
  let content := file.content
  match validate_file maxFileSize allowedExts allowedMimes file content with
  | some e => .error e
  | none =>
    let artifact_id := strOf "user_upload_" ++ hexId
    let ext :=
      if pyTruthyOptStr file.filename
      then lowerStr (pathSuffix (file.filename.getD []))
      else strOf ".png"
    let save_path := sess.uploadsDir ++ strOf "/" ++ artifact_id ++ ext
    let files' :=
      if save_path ∈ sess.files then sess.files else sess.files ++ [save_path]
    let titleVal :=
      if pyTruthyOptStr title then title.getD []
      else if pyTruthyOptStr file.filename then
        pathStem (file.filename.getD [])
      else artifact_id
    let artifact : Artifact :=
      ⟨artifact_id, strOf "plot", titleVal, description, [],
       tags.getD [] ++ [strOf "user_upload"], save_path, [], []⟩
    let arts := Store.get store sess.catalog.artifactsRef
    let store' := Store.set store sess.catalog.artifactsRef (arts ++ [artifact])
    let sess' : Session :=
      ⟨⟨sess.catalog.artifact_count + 1, sess.catalog.artifactsRef⟩,
       sess.uploaded_images ++ [artifact_id], files', sess.uploadsDir⟩
    .ok (store', sess', artifact)

/-- Placeholder artifact for the (never reached) out-of-range index. -/
def defaultArtifact : Artifact := ⟨[], [], [], [], [], [], [], [], []⟩

/-- `ImageHandler.remove_artifact`: only ids in `uploaded_images` may be
removed; the first catalog entry with the id is unlinked from disk and
popped, the count decremented and the upload id dropped; returns whether
anything was removed. -/
def remove_artifact (store : Store) (sess : Session) (artifact_id : Str) :
    Store × Session × Bool :=
  if artifact_id ∈ sess.uploaded_images then
    let arts := Store.get store sess.catalog.artifactsRef
    match arts.findIdx? (fun a => decide (a.artifact_id = artifact_id)) with
    | some i =>
      let a := arts.getD i defaultArtifact
      let store' := Store.set store sess.catalog.artifactsRef (arts.eraseIdx i)
      let sess' : Session :=
        ⟨⟨sess.catalog.artifact_count - 1, sess.catalog.artifactsRef⟩,
         sess.uploaded_images.erase artifact_id,
         sess.files.erase a.save_path, sess.uploadsDir⟩
      (store', sess', true)
    | none => (store, sess, false)
  else (store, sess, false)

/-! ## Lemmas about the design loop -/

/-- Any outcome of the retry loop that is marked passed carries HTML on
which the validator reports no error, and an empty error list. -/
theorem designFrom_passed (gen : Nat → Str) (slide : SlideSpec) :
    ∀ attempt remaining r,
      (designFrom gen slide attempt remaining).1 = some r →
      r.validation_passed = true →
      validate_html r.html_content slide = [] ∧ r.validation_errors = [] := by
  intro attempt remaining
  induction remaining generalizing attempt with
  | zero => intro r h _; simp [designFrom] at h
  | succ n ih =>
    intro r h hp
    rw [designFrom] at h
    split at h
    · next heq =>
      simp only at h
      cases h
      exact ⟨heq, rfl⟩
    · split at h
      · next =>
        simp only at h
        cases h
        cases hp
      · next =>
        simp only at h
        exact ih (attempt + 1) r h hp

/-- The loop makes at most `remaining` generator calls. -/
theorem designFrom_calls_le (gen : Nat → Str) (slide : SlideSpec) :
    ∀ attempt remaining,
      (designFrom gen slide attempt remaining).2 ≤ remaining := by
  intro attempt remaining
  induction remaining generalizing attempt with
  | zero => simp [designFrom]
  | succ n ih =>
    rw [designFrom]
    split
    · simp
    · split
      · simp
      · simpa using Nat.add_le_add_right (ih (attempt + 1)) 1

/-- When every attempt in range fails validation, the loop spends its
whole budget and ends in a failed result with a non-empty error list. -/
theorem designFrom_allFail (gen : Nat → Str) (slide : SlideSpec) :
    ∀ attempt remaining, 0 < remaining →
      (∀ k, attempt ≤ k → k < attempt + remaining →
        validate_html (extract_html (gen k)) slide ≠ []) →
      (designFrom gen slide attempt remaining).2 = remaining ∧
      ∃ html errs,
        (designFrom gen slide attempt remaining).1 =
          some ⟨slide.slide_id, html, false, errs⟩ ∧ errs ≠ [] := by
  intro attempt remaining
  induction remaining generalizing attempt with
  | zero => intro h; cases h
  | succ n ih =>
    intro _ hfail
    have hcur : validate_html (extract_html (gen attempt)) slide ≠ [] :=
      hfail attempt (Nat.le_refl _) (by omega)
    rw [designFrom]
    split
    · next heq => exact absurd heq hcur
    · split
      · next hn =>
        subst hn
        exact ⟨rfl, extract_html (gen attempt),
          validate_html (extract_html (gen attempt)) slide, rfl, hcur⟩
      · next hn =>
        have hrec := ih (attempt + 1) (Nat.pos_of_ne_zero hn)
          (fun k hk1 hk2 => hfail k (by omega) (by omega))
        exact ⟨by simpa using hrec.1, hrec.2⟩

/-! ## C1 -/

/-- C1: whenever `design_slide` returns a result with
`validation_passed = true`, running `_validate_html` on the returned
`html_content` for that slide yields an empty error list, and the
returned `validation_errors` list is empty.  Quantified over every slide
spec and every sequence of generator responses; the `some` hypothesis
states that the loop returned (rather than raising). -/
theorem C1_design_result_validated (gen : Nat → Str) (slide : SlideSpec)
    (mr : Nat) (r : SlideDesignResult)
    (h : design_slide gen slide mr = some r)
    (hp : r.validation_passed = true) :
    validate_html r.html_content slide = [] ∧ r.validation_errors = [] :=
  designFrom_passed gen slide 1 mr r h hp

/-- C1 witness: a concrete passing run. -/
theorem C1_design_result_validated_witness :
    validate_html (SlideDesignResult.mk (strOf "s1") goodHtml true
      []).html_content slideS1 = [] ∧
    (SlideDesignResult.mk (strOf "s1") goodHtml true []).validation_errors
      = [] :=
  C1_design_result_validated genGood slideS1 1 _ (by decide) (by decide)

/-! ## C5 -/

/-- C5: the design loop invokes the generator at most `max_retries`
times; against a generator whose every response fails validation, it
makes exactly `max_retries` invocations and returns (without raising) a
result with `validation_passed = false` and a non-empty error list.
The hypothesis `1 ≤ mr` reflects the retry budget the constructor
establishes (see C9). -/
theorem C5_retry_bound (gen : Nat → Str) (slide : SlideSpec) (mr : Nat)
    (hmr : 1 ≤ mr) :
    design_slide_calls gen slide mr ≤ mr ∧
    ((∀ k, 1 ≤ k → k ≤ mr →
        validate_html (extract_html (gen k)) slide ≠ []) →
      design_slide_calls gen slide mr = mr ∧
      (design_slide gen slide mr).isSome = true ∧
      ∃ html errs, design_slide gen slide mr =
        some ⟨slide.slide_id, html, false, errs⟩ ∧ errs ≠ []) := by
  refine ⟨designFrom_calls_le gen slide 1 mr, fun hfail => ?_⟩
  have h := designFrom_allFail gen slide 1 mr (by omega)
    (fun k hk1 hk2 => hfail k hk1 (by omega))
  obtain ⟨hc, html, errs, hres, hne⟩ := h
  exact ⟨hc, by simp [design_slide, hres], html, errs, hres, hne⟩

/-- C5 witness: the always-failing generator at budget 3 is called
exactly 3 times. -/
theorem C5_retry_bound_witness :
    design_slide_calls genBad slideS1 3 = 3 :=
  ((C5_retry_bound genBad slideS1 3 (by decide)).2
    (fun _ _ _ =>
      (by decide : validate_html (extract_html (strOf "bad")) slideS1 ≠ []))).1

/-- The loop makes at least one generator call whenever it has a
positive budget. -/
theorem designFrom_calls_pos (gen : Nat → Str) (slide : SlideSpec)
    (attempt n : Nat) :
    1 ≤ (designFrom gen slide attempt (n + 1)).2 := by
  rw [designFrom]
  split
  · exact Nat.le_refl 1
  · split
    · exact Nat.le_refl 1
    · simp

/-! ## C9 -/

/-- C9 counterexample: passing `max_retries = -1` to the constructor
defeats the `or`-defaulting (only `0` and `None` are falsy), and the
negative budget makes `range(1, max_retries + 1)` empty: the design loop
performs zero attempts and never calls the generator (the subsequent
`return` then raises `NameError`, modelled as `none`). -/
theorem C9_counterexample :
    designerInitMaxRetries (some (-1)) = -1 ∧
    plannerInitMaxRetries (some (-1)) = -1 ∧
    loopAttempts (designerInitMaxRetries (some (-1))) = 0 ∧
    design_slide_calls genGood slideS1
      (loopAttempts (designerInitMaxRetries (some (-1)))) = 0 ∧
    design_slide genGood slideS1
      (loopAttempts (designerInitMaxRetries (some (-1)))) = none := by
  decide

/-- C9 amended: for both agents, `max_retries = 0` or `None` yields the
default budget of 3, any non-zero value is kept as given, and no
**non-negative** constructor argument can produce a zero-attempt loop —
but a negative argument does produce one. -/
theorem C9_falsy_defaults (m : Option Int) :
    designerInitMaxRetries m = plannerInitMaxRetries m ∧
    (m = none → designerInitMaxRetries m = 3) ∧
    (m = some 0 → designerInitMaxRetries m = 3) ∧
    (∀ v, m = some v → v ≠ 0 → designerInitMaxRetries m = v) ∧
    ((∀ v, m = some v → 0 ≤ v) → ∀ gen slide,
      1 ≤ design_slide_calls gen slide
        (loopAttempts (designerInitMaxRetries m))) := by
  refine ⟨by cases m <;> rfl, by rintro rfl; rfl, by rintro rfl; rfl,
    ?_, ?_⟩
  · rintro v rfl hv
    simp [designerInitMaxRetries, hv]
  · intro hnn gen slide
    have hb : 1 ≤ loopAttempts (designerInitMaxRetries m) := by
      cases m with
      | none => decide
      | some v =>
        have hv := hnn v rfl
        by_cases h0 : v = 0
        · subst h0; decide
        · simp only [designerInitMaxRetries, if_neg h0, loopAttempts]
          omega
    obtain ⟨n, hn⟩ : ∃ n, loopAttempts (designerInitMaxRetries m) = n + 1 :=
      ⟨loopAttempts (designerInitMaxRetries m) - 1, by omega⟩
    rw [hn]
    exact designFrom_calls_pos gen slide 1 n

/-- C9 witness: a positive argument is kept unchanged. -/
theorem C9_falsy_defaults_witness : designerInitMaxRetries (some 2) = 2 :=
  (C9_falsy_defaults (some 2)).2.2.2.1 2 rfl (by decide)

/-! ## C4 -/

/-- The root container opening tag of the C4 counterexample document. -/
def c4RootTag : Str := strOf "<div id=\"slide-root\">"

/-- A document whose root container carries no data attribute at all;
the matching `data-slide-id` sits on a `span` after the root div has
been closed. -/
def c4Html : Str :=
  strOf "<!DOCTYPE html><html><head></head><body>" ++ c4RootTag ++
  strOf "<p>x</p></div><span data-slide-id=\"s1\"></span></body></html>"

/-- C4 counterexample: `_validate_html` accepts this document for slide
`s1` with an empty error list even though the root container element
carries no data attribute — the matching attribute is on a later,
unrelated element.  The conjuncts exhibit the decomposition of the
document around the root tag and that the root tag holds no
`data-slide-id`. -/
theorem C4_counterexample :
    validate_html c4Html slideS1 = [] ∧
    c4Html =
      strOf "<!DOCTYPE html><html><head></head><body>" ++ c4RootTag ++
      strOf "<p>x</p></div><span data-slide-id=\"s1\"></span></body></html>" ∧
    inStr (strOf "data-slide-id") c4RootTag = false ∧
    findSub (strOf "id=\"slide-root\"") c4Html = some 45 := by
  decide

/-- C4 amended: the validator performs a plain substring search for
`data-slide-id="<slide_id>"` over the whole document: the check passes
exactly when that substring occurs anywhere; absence (or presence only
with a different value) fails validation, but the attribute need not sit
on the root container element. -/
theorem C4_slideId_substring (html : Str) (slide : SlideSpec) :
    (slideIdCheck html slide = [] ↔ inStr (slideIdNeedle slide) html = true) ∧
    (inStr (slideIdNeedle slide) html = false → validate_html html slide ≠ []) ∧
    (validate_html html slide = [] → inStr (slideIdNeedle slide) html = true) := by
  have h2 : inStr (slideIdNeedle slide) html = false →
      validate_html html slide ≠ [] := by
    intro hfalse hv
    have hmem : (strOf "Missing or incorrect data-slide-id (expected " ++
        slide.slide_id ++ strOf ")") ∈ validate_html html slide := by
      simp [validate_html, slideIdCheck, hfalse]
    rw [hv] at hmem
    cases hmem
  refine ⟨?_, h2, ?_⟩
  · by_cases h : inStr (slideIdNeedle slide) html = true
    · simp [slideIdCheck, h]
    · have hf : inStr (slideIdNeedle slide) html = false := by simpa using h
      simp [slideIdCheck, hf]
  · intro hv
    by_cases h : inStr (slideIdNeedle slide) html = true
    · exact h
    · exact absurd hv (h2 (by simpa using h))

/-- C4 amended witness: the empty document fails validation (the needle
is absent). -/
theorem C4_slideId_substring_witness : validate_html [] slideS1 ≠ [] :=
  (C4_slideId_substring [] slideS1).2.1 (by decide)

/-! ## C6: string lemmas and extraction identity -/

/-- Python substring membership coincides with the infix relation. -/
theorem inStr_iff_sub (n s : Str) : inStr n s = true ↔ n <:+: s := by
  induction s with
  | nil =>
    constructor
    · intro h
      by_cases hn : n = []
      · subst hn; exact List.nil_infix
      · simp [inStr, findSub, hn] at h
    · intro h
      have hn : n = [] := List.infix_nil.mp h
      subst hn; rfl
  | cons c t ih =>
    constructor
    · intro h
      simp only [inStr, findSub] at h
      by_cases hp : n.isPrefixOf (c :: t)
      · exact (List.isPrefixOf_iff_prefix.mp hp).isInfix
      · rw [if_neg hp] at h
        have ht : inStr n t = true := by
          simpa [inStr] using h
        exact List.infix_cons (ih.mp ht)
    · intro h
      rcases List.infix_cons_iff.mp h with hp | ht
      · simp [inStr, findSub, List.isPrefixOf_iff_prefix.mpr hp]
      · by_cases hp : n.isPrefixOf (c :: t)
        · simp [inStr, findSub, hp]
        · have := ih.mpr ht
          simp only [inStr, findSub, if_neg hp]
          simpa [inStr] using this

/-- Absence of a substring transfers to any longer needle containing it. -/
theorem findSub_eq_none_of_carrier (small big s : Str)
    (hsub : small <:+: big) (h : inStr small s = false) :
    findSub big s = none := by
  cases hbig : findSub big s with
  | none => rfl
  | some i =>
    have hin : inStr big s = true := by simp [inStr, hbig]
    have : inStr small s = true :=
      (inStr_iff_sub small s).mpr (hsub.trans ((inStr_iff_sub big s).mp hin))
    rw [h] at this
    cases this

/-- `pystrip` is right-strip after left-strip. -/
theorem pystrip_eq (s : Str) :
    pystrip s = List.rdropWhile pyWs (List.dropWhile pyWs s) := rfl

/-- Stripping an already-stripped string changes nothing. -/
theorem pystrip_idem (s : Str) : pystrip (pystrip s) = pystrip s := by
  have h1 : List.dropWhile pyWs (pystrip s) = pystrip s := by
    rw [pystrip_eq]
    rw [List.dropWhile_eq_self_iff]
    intro hl
    obtain ⟨t, ht⟩ := List.rdropWhile_prefix pyWs (List.dropWhile pyWs s)
    have hlen : 0 < (List.dropWhile pyWs s).length := by
      rw [← ht, List.length_append]
      omega
    have hq : (List.dropWhile pyWs s)[0]? =
        (List.rdropWhile pyWs (List.dropWhile pyWs s))[0]? := by
      conv_lhs => rw [← ht]
      exact List.getElem?_append_left hl
    have hnot := List.dropWhile_get_zero_not pyWs s hlen
    rw [List.get_eq_getElem] at hnot
    rw [List.getElem?_eq_getElem hlen, List.getElem?_eq_getElem hl] at hq
    rw [List.get_eq_getElem, ← Option.some.inj hq]
    exact hnot
  calc pystrip (pystrip s)
      = List.rdropWhile pyWs (List.dropWhile pyWs (pystrip s)) := pystrip_eq _
    _ = List.rdropWhile pyWs (pystrip s) := by rw [h1]
    _ = pystrip s := by
        rw [pystrip_eq s]
        exact List.rdropWhile_idempotent pyWs (List.dropWhile pyWs s)

/-- C6: on an input that is a bare HTML document and nothing else — no
code fence anywhere, and (after stripping) either a DOCTYPE match
starting at position 0 with the first (case-insensitive) `</html>`
ending exactly at the end of the string, or no DOCTYPE match at all —
`_extract_html` is the identity modulo surrounding whitespace. -/
theorem C6_extract_identity (s : Str)
    (hf : inStr (strOf "```") (pystrip s) = false)
    (hd : ((∃ L, doctypeSearch (pystrip s) = some (0, L)) ∧
           findSubCI "</html>" (pystrip s) = some ((pystrip s).length - 7) ∧
           7 ≤ (pystrip s).length) ∨
          doctypeSearch (pystrip s) = none) :
    extract_html s = pystrip s := by
  have hback : findSub (strOf "```") (pystrip s) = none := by
    cases hb : findSub (strOf "```") (pystrip s) with
    | none => rfl
    | some i => rw [show inStr (strOf "```") (pystrip s) = true from by
        simp [inStr, hb]] at hf; cases hf
  have hfenceHtml : findSub (strOf "```html") (pystrip s) = none :=
    findSub_eq_none_of_carrier (strOf "```") (strOf "```html") (pystrip s)
      (by decide) hf
  rw [extract_html]
  rw [show fenceSlice (pystrip s) "```html" 7 = none from by
    rw [fenceSlice, hfenceHtml]]
  rw [show fenceSlice (pystrip s) "```" 3 = none from by
    rw [fenceSlice, hback]]
  rcases hd with ⟨⟨L, hdt⟩, hclose, h7⟩ | hnone
  · rw [hdt]
    simp only [List.drop_zero]
    rw [hclose]
    show pystrip (slice (pystrip s) 0 (0 + ((pystrip s).length - 7) + 7)) =
      pystrip s
    rw [show (0 : Nat) + ((pystrip s).length - 7) + 7 = (pystrip s).length from
      by omega]
    rw [slice, List.drop_zero, List.take_length]
    exact pystrip_idem s
  · rw [hnone]

/-- C6 witness: a concrete fence-free document with surrounding
whitespace is returned stripped but otherwise unchanged. -/
theorem C6_extract_identity_witness :
    extract_html (strOf "\n<!DOCTYPE html><html><head></head><body></body></html>  ") =
      pystrip (strOf "\n<!DOCTYPE html><html><head></head><body></body></html>  ") :=
  C6_extract_identity _ (by decide)
    (Or.inl ⟨⟨15, by decide⟩, by decide, by decide⟩)

/-! ## C2 and C3: orchestrator fixtures -/

/-- A designer that runs the real design loop (budget 1) over the
always-failing generator. -/
def c2Designer : SlideSpec → Except Str SlideDesignResult := fun s =>
  match design_slide genBad s 1 with
  | some r => .ok r
  | none => .error []

/-- A build step that always succeeds over whatever batch it is given. -/
def okBuild : List (Str × Str) → BuildResult := fun files =>
  ⟨true, some (strOf "out.pptx"), files.length, [], []⟩

/-- The second slide of the C3 run. -/
def slideS2 : SlideSpec := ⟨strOf "s2", 2⟩

/-- A designer that raises on slide `s2` and designs every other slide
successfully through the real loop. -/
def c3Designer : SlideSpec → Except Str SlideDesignResult := fun s =>
  if s.slide_id = strOf "s2" then .error (strOf "boom")
  else
    match design_slide genGood s 1 with
    | some r => .ok r
    | none => .error []

/-- C2 counterexample: a slide whose design result has
`validation_passed = false` (its content fails the checklist) is still
written to the slides directory and included in the batch handed to the
render step — the run even reports overall success, with the validation
failures demoted to warnings. -/
theorem C2_counterexample :
    design_slide genBad slideS1 1 =
      some (SlideDesignResult.mk (strOf "s1") (strOf "bad") false
        [strOf "Missing #slide-root container",
         strOf "Missing or incorrect data-slide-id (expected s1)",
         strOf "Missing DOCTYPE declaration",
         strOf "Missing <html> tag",
         strOf "Missing <head> tag",
         strOf "Missing <body> tag"]) ∧
    validate_html (strOf "bad") slideS1 ≠ [] ∧
    (designPhase c2Designer [slideS1] ⟨[], [], []⟩).html_files =
      [(strOf "01_s1.html", strOf "bad")] ∧
    (generate_presentation_after_plan c2Designer okBuild [slideS1]
      (strOf "T") (strOf "out") []).slide_count = 1 ∧
    (generate_presentation_after_plan c2Designer okBuild [slideS1]
      (strOf "T") (strOf "out") []).success = true ∧
    (generate_presentation_after_plan c2Designer okBuild [slideS1]
      (strOf "T") (strOf "out") []).limitations ≠ [] := by
  decide

/-- C2 amended: the batch handed to the renderer contains exactly one
file per slide whose designer call returned (instead of raising),
regardless of `validation_passed`; validation failures only add
warnings and never exclude a file from the batch. -/
theorem C2_batch_contents (designer : SlideSpec → Except Str SlideDesignResult)
    (slides : List SlideSpec) (st : DesignPhaseState) :
    (designPhase designer slides st).html_files =
      st.html_files ++ slides.filterMap (fun s =>
        match designer s with
        | .ok r => some (slideFilename s, r.html_content)
        | .error _ => none) := by
  induction slides generalizing st with
  | nil => simp [designPhase]
  | cons s rest ih =>
    rw [designPhase]
    cases hd : designer s with
    | ok r => simp [hd, ih]
    | error e => simp [hd, ih]

/-- C3 counterexample: two slides, the first designed successfully, the
second raising an exception; the build step succeeds over the written
batch, yet the run result has `success = false`, because the per-slide
exception lands in `errors` and the final success flag requires the
error list to be empty. -/
theorem C3_counterexample :
    (designPhase c3Designer [slideS1, slideS2] ⟨[], [], []⟩).html_files =
      [(strOf "01_s1.html", goodHtml)] ∧
    (okBuild (designPhase c3Designer [slideS1, slideS2]
      ⟨[], [], []⟩).html_files).success = true ∧
    (generate_presentation_after_plan c3Designer okBuild [slideS1, slideS2]
      (strOf "T") (strOf "out") []).success = false ∧
    (generate_presentation_after_plan c3Designer okBuild [slideS1, slideS2]
      (strOf "T") (strOf "out") []).errors =
      [strOf "Failed to design slide s2: boom"] := by
  decide

/-- C3 amended: a run that reaches the design phase succeeds exactly
when at least one slide was designed without raising, the build step
succeeds, no per-slide designer call raised, and the build reported no
errors.  In particular per-slide exceptions force `success = false` even
when other slides were designed and the render succeeds. -/
theorem C3_success_iff (designer : SlideSpec → Except Str SlideDesignResult)
    (build : List (Str × Str) → BuildResult) (slides : List SlideSpec)
    (title outputDir : Str) (assumptions : List Str) :
    (generate_presentation_after_plan designer build slides title outputDir
        assumptions).success = true ↔
      ((designPhase designer slides ⟨[], [], []⟩).html_files ≠ [] ∧
       (build (designPhase designer slides ⟨[], [], []⟩).html_files).success
         = true ∧
       (designPhase designer slides ⟨[], [], []⟩).errors = [] ∧
       (build (designPhase designer slides ⟨[], [], []⟩).html_files).errors
         = []) := by
  rw [generate_presentation_after_plan]
  by_cases h : (designPhase designer slides ⟨[], [], []⟩).html_files = []
  · simp [h]
  · simp only [h, if_neg h]
    simp [h, Bool.and_eq_true, decide_eq_true_eq, List.append_eq_nil]

/-! ## C7: catalog copy isolation -/

/-- `model_copy` reproduces the artifact. -/
theorem modelCopy_eq (a : Artifact) : modelCopy a = a := rfl

/-- C7: a session catalog is created as a deep copy of the base catalog
— same count, same artifact values, but a freshly allocated artifact
list distinct from every live list object (in particular from the base
catalog and from every other session, whose lists are live) — and the
catalog mutations of the upload handler (`process_upload` success,
`remove_artifact`) write only to the list object of the mutated session,
leaving every other list object, hence the base catalog and every other
session catalog, unchanged. -/
theorem C7_catalog_isolation (store : Store) (base : CatalogObj)
    (hbase : base.artifactsRef < store.next) :
    (Store.get (create_session_catalog store base).1
        (create_session_catalog store base).2.artifactsRef =
       Store.get store base.artifactsRef ∧
     (create_session_catalog store base).2.artifact_count =
       base.artifact_count ∧
     (create_session_catalog store base).2.artifactsRef ≠ base.artifactsRef ∧
     ∀ r, r < store.next →
       (create_session_catalog store base).2.artifactsRef ≠ r ∧
       Store.get (create_session_catalog store base).1 r =
         Store.get store r) ∧
    (∀ maxFS exts mimes sess file hexId title desc tags store' sess' a,
      process_upload maxFS exts mimes store sess file hexId title desc tags =
        .ok (store', sess', a) →
      ∀ r, r ≠ sess.catalog.artifactsRef →
        Store.get store' r = Store.get store r) ∧
    (∀ sess aid r, r ≠ sess.catalog.artifactsRef →
      Store.get (remove_artifact store sess aid).1 r = Store.get store r) := by
  have hcopy : modelCopy = fun a => a := funext fun a => rfl
  refine ⟨⟨?_, rfl, ?_, ?_⟩, ?_, ?_⟩
  · simp [create_session_catalog, Store.get, Store.alloc, hcopy]
  · simp only [create_session_catalog, Store.alloc]
    omega
  · intro r hr
    refine ⟨by simp only [create_session_catalog, Store.alloc]; omega, ?_⟩
    simp only [create_session_catalog, Store.alloc, Store.get]
    rw [if_neg (by omega)]
  · intro maxFS exts mimes sess file hexId title desc tags store' sess' a h
    intro r hr
    rw [process_upload] at h
    cases hv : validate_file maxFS exts mimes file file.content with
    | some e => rw [hv] at h; cases h
    | none =>
      rw [hv] at h
      simp only at h
      cases h
      simp only [Store.set, Store.get]
      rw [if_neg hr]
  · intro sess aid r hr
    simp only [remove_artifact]
    by_cases hup : aid ∈ sess.uploaded_images
    · simp only [if_pos hup]
      cases hidx : (Store.get store sess.catalog.artifactsRef).findIdx?
          (fun a => decide (a.artifact_id = aid)) with
      | some i =>
        simp only [Store.set, Store.get]
        rw [if_neg hr]
      | none => rfl
    · simp only [if_neg hup]

/-- A one-object store and a base catalog referencing it. -/
def storeW : Store := ⟨fun _ => [], 1⟩

def baseW : CatalogObj := ⟨0, 0⟩

/-- C7 witness: at the concrete base state, the created session catalog
references a fresh list object, not the base one. -/
theorem C7_catalog_isolation_witness :
    (create_session_catalog storeW baseW).2.artifactsRef ≠
      baseW.artifactsRef :=
  (C7_catalog_isolation storeW baseW (by decide)).1.2.2.1

/-! ## C8: upload rejection -/

/-- The backend state after an upload request: unchanged when
`process_upload` raises (the exception propagates before any mutation),
updated otherwise. -/
def uploadFinalState (maxFS : Nat) (exts mimes : List Str) (store : Store)
    (sess : Session) (file : UploadFile) (hexId : Str) (title : Option Str)
    (desc : Str) (tags : Option (List Str)) : Store × Session :=
  match process_upload maxFS exts mimes store sess file hexId title desc tags
    with
  | .ok (store', sess', _) => (store', sess')
  | .error _ => (store, sess)

/-- C8: an upload whose content exceeds the configured cap, or whose
(present) filename has a suffix outside the allowed set, makes
`process_upload` raise `ImageValidationError` before any mutation: the
store (hence the session catalog list), the session object (count,
uploaded ids) and the uploads directory are exactly as before. -/
theorem C8_upload_rejection (maxFS : Nat) (exts mimes : List Str)
    (store : Store) (sess : Session) (file : UploadFile) (hexId : Str)
    (title : Option Str) (desc : Str) (tags : Option (List Str))
    (hbad : maxFS < file.content.length ∨
      (pyTruthyOptStr file.filename = true ∧
       lowerStr (pathSuffix (file.filename.getD [])) ∉ exts)) :
    ∃ e,
      process_upload maxFS exts mimes store sess file hexId title desc tags =
        .error e ∧
      (e = ImageValidationError.fileTooLarge ∨
       e = ImageValidationError.extensionNotAllowed) ∧
      uploadFinalState maxFS exts mimes store sess file hexId title desc tags =
        (store, sess) := by
  have hval : validate_file maxFS exts mimes file file.content =
        some ImageValidationError.fileTooLarge ∨
      validate_file maxFS exts mimes file file.content =
        some ImageValidationError.extensionNotAllowed := by
    by_cases hsize : maxFS < file.content.length
    · left
      rw [validate_file]
      simp only [if_pos hsize]
    · rcases hbad with hb | ⟨htr, hext⟩
      · exact absurd hb hsize
      · right
        rw [validate_file]
        simp only [if_neg hsize, if_pos htr, if_neg hext]
  rcases hval with hv | hv
  · refine ⟨ImageValidationError.fileTooLarge, ?_, Or.inl rfl, ?_⟩
    · rw [process_upload, hv]
    · rw [uploadFinalState, process_upload, hv]
  · refine ⟨ImageValidationError.extensionNotAllowed, ?_, Or.inr rfl, ?_⟩
    · rw [process_upload, hv]
    · rw [uploadFinalState, process_upload, hv]

/-- A session over `storeW` whose catalog references object 0. -/
def sessW : Session := ⟨⟨0, 0⟩, [], [], strOf "/uploads"⟩

/-- An upload of 11 bytes, above a 10-byte cap. -/
def fileBigW : UploadFile :=
  ⟨some (strOf "a.png"), none, List.replicate 11 0⟩

/-- C8 witness: the oversized concrete upload is rejected with the state
unchanged. -/
theorem C8_upload_rejection_witness :
    ∃ e,
      process_upload 10 [strOf ".png"] [] storeW sessW fileBigW (strOf "ab")
        none [] none = .error e ∧
      (e = ImageValidationError.fileTooLarge ∨
       e = ImageValidationError.extensionNotAllowed) ∧
      uploadFinalState 10 [strOf ".png"] [] storeW sessW fileBigW (strOf "ab")
        none [] none = (storeW, sessW) :=
  C8_upload_rejection 10 [strOf ".png"] [] storeW sessW fileBigW (strOf "ab")
    none [] none (Or.inl (by decide))

/-! ## C10: the count/length invariant -/

/-- Reading a freshly written list object back. -/
theorem Store.get_set_same (σ : Store) (r : Nat) (v : List Artifact) :
    Store.get (Store.set σ r v) r = v := by
  simp [Store.get, Store.set]

/-- Writes do not touch other list objects. -/
theorem Store.get_set_ne (σ : Store) (r r2 : Nat) (v : List Artifact)
    (h : r2 ≠ r) :
    Store.get (Store.set σ r v) r2 = Store.get σ r2 := by
  simp [Store.get, Store.set, h]

/-- C10: when a session catalog satisfies
`artifact_count = len(artifacts)`, a successful `process_upload`
preserves it, appending exactly one artifact and incrementing the count
by one, and `remove_artifact` preserves it in both outcomes: on `false`
the state is untouched, on `true` exactly one artifact is removed and
the count drops by one. -/
theorem C10_count_invariant (maxFS : Nat) (exts mimes : List Str)
    (store : Store) (sess : Session) (file : UploadFile) (hexId : Str)
    (title : Option Str) (desc : Str) (tags : Option (List Str))
    (hinv : sess.catalog.artifact_count =
      (Store.get store sess.catalog.artifactsRef).length) :
    (∀ store' sess' a,
      process_upload maxFS exts mimes store sess file hexId title desc tags =
        .ok (store', sess', a) →
      sess'.catalog.artifact_count =
        (Store.get store' sess'.catalog.artifactsRef).length ∧
      sess'.catalog.artifact_count = sess.catalog.artifact_count + 1 ∧
      Store.get store' sess'.catalog.artifactsRef =
        Store.get store sess.catalog.artifactsRef ++ [a]) ∧
    (∀ aid,
      ((remove_artifact store sess aid).2.1).catalog.artifact_count =
        (Store.get (remove_artifact store sess aid).1
          ((remove_artifact store sess aid).2.1).catalog.artifactsRef).length ∧
      ((remove_artifact store sess aid).2.2 = false →
        (remove_artifact store sess aid).1 = store ∧
        (remove_artifact store sess aid).2.1 = sess) ∧
      ((remove_artifact store sess aid).2.2 = true →
        ((remove_artifact store sess aid).2.1).catalog.artifact_count =
          sess.catalog.artifact_count - 1 ∧
        (Store.get (remove_artifact store sess aid).1
            ((remove_artifact store sess aid).2.1).catalog.artifactsRef).length
          + 1 =
          (Store.get store sess.catalog.artifactsRef).length)) := by
  constructor
  · intro store' sess' a h
    rw [process_upload] at h
    cases hv : validate_file maxFS exts mimes file file.content with
    | some e => rw [hv] at h; cases h
    | none =>
      rw [hv] at h
      simp only at h
      cases h
      refine ⟨?_, rfl, ?_⟩
      · simp only [Store.get_set_same, List.length_append, List.length_cons,
          List.length_nil]
        push_cast
        omega
      · simp only [Store.get_set_same]
  · intro aid
    by_cases hup : aid ∈ sess.uploaded_images
    · cases hidx : (Store.get store sess.catalog.artifactsRef).findIdx?
          (fun a => decide (a.artifact_id = aid)) with
      | some i =>
        have hi : i < (Store.get store sess.catalog.artifactsRef).length :=
          (List.findIdx?_eq_some_iff_findIdx_eq.mp hidx).1
        refine ⟨?_, ?_, ?_⟩
        · simp only [remove_artifact, if_pos hup, hidx, Store.get_set_same]
          rw [List.length_eraseIdx, if_pos hi]
          omega
        · intro hh
          simp only [remove_artifact, if_pos hup, hidx] at hh
          cases hh
        · intro _
          refine ⟨?_, ?_⟩
          · simp only [remove_artifact, if_pos hup, hidx]
          · simp only [remove_artifact, if_pos hup, hidx, Store.get_set_same]
            rw [List.length_eraseIdx, if_pos hi]
            omega
      | none =>
        refine ⟨?_, ?_, ?_⟩
        · simp only [remove_artifact, if_pos hup, hidx]
          exact hinv
        · intro _
          simp only [remove_artifact, if_pos hup, hidx]
          exact ⟨trivial, trivial⟩
        · intro hh
          simp only [remove_artifact, if_pos hup, hidx] at hh
          cases hh
    · refine ⟨?_, ?_, ?_⟩
      · simp only [remove_artifact, if_neg hup]
        exact hinv
      · intro _
        simp only [remove_artifact, if_neg hup]
        exact ⟨trivial, trivial⟩
      · intro hh
        simp only [remove_artifact, if_neg hup] at hh
        cases hh

/-- C10 witness: removing an unknown id from the concrete session leaves
the session unchanged. -/
theorem C10_count_invariant_witness :
    (remove_artifact storeW sessW (strOf "x")).2.1 = sessW :=
  (((C10_count_invariant 10 [] [] storeW sessW fileBigW (strOf "ab") none []
      none rfl).2 (strOf "x")).2.1 (by decide)).2

end SlideWeaver
